import Mathlib

/-!
Verification of the trading edge module (trading/edge.py): the P_win scorer,
the expected-value formula, and the batch CSV processor.

Python float arithmetic is modelled exactly: the straight-line field
arithmetic (deltas, clipping, weighted sum, EV) is carried out in ℚ, and the
final sigmoid lives in ℝ with `Real.exp` standing for `np.exp`. The two
analyst-rating inputs are Python ints, modelled as ℤ. The batch processor
works on an already-parsed table (file reading and the optional output write
are I/O glue outside the scored logic): a table is a column-name list plus a
list of rows, a row giving the numeric value of each named cell.
-/

/-- The weight mapping with its five required keys
(trading/edge.py lines 21-27, dict DEFAULT_WEIGHTS and the dicts accepted by
calculate_p_win). -/
structure Weights where
  analysts_ratings : ℚ
  smart_score : ℚ
  net_options_sentiment : ℚ
  net_social_sentiment : ℚ
  upside_breakout : ℚ

/-- DEFAULT_WEIGHTS, lines 21-27: 0.25, 0.15, 0.20, 0.20, 0.20. -/
def DEFAULT_WEIGHTS : Weights := ⟨0.25, 0.15, 0.20, 0.20, 0.20⟩

/-- np.clip(x, lo, hi): min(max(x, lo), hi), as used on lines 66-82. -/
def clip (x lo hi : ℚ) : ℚ := min (max x lo) hi

/-- Analysts delta, lines 60-66: raw value
(buy_ratings/total_ratings) * (total_ratings/20) * 30 when total_ratings > 0,
else 0; clipped to [-30, 30]. -/
def analysts_delta (buy_ratings total_ratings : ℤ) : ℚ :=
  clip
    (if 0 < total_ratings then
      ((buy_ratings : ℚ) / (total_ratings : ℚ)) * ((total_ratings : ℚ) / 20) * 30
    else 0)
    (-30) 30

/-- Smart-score delta, lines 69-70: ((score - 5) / 5) * 20, clipped to [-20, 20]. -/
def smart_delta (smart_score : ℚ) : ℚ :=
  clip (((smart_score - 5) / 5) * 20) (-20) 20

/-- Net-options-sentiment delta, lines 73-74: ((score - 50) / 50) * 20,
clipped to [-20, 20]. -/
def options_delta (net_options_sentiment : ℚ) : ℚ :=
  clip (((net_options_sentiment - 50) / 50) * 20) (-20) 20

/-- Net-social-sentiment delta, lines 77-78: ((score - 50) / 50) * 20,
clipped to [-20, 20]. -/
def social_delta (net_social_sentiment : ℚ) : ℚ :=
  clip (((net_social_sentiment - 50) / 50) * 20) (-20) 20

/-- Upside-breakout delta, lines 81-82: ((score - 50) / 50) * 20,
clipped to [-20, 20]. -/
def breakout_delta (upside_breakout : ℚ) : ℚ :=
  clip (((upside_breakout - 50) / 50) * 20) (-20) 20

/-- Weighted total delta, lines 85-91. -/
def total_delta (buy_ratings total_ratings : ℤ)
    (smart_score net_options_sentiment net_social_sentiment upside_breakout : ℚ)
    (w : Weights) : ℚ :=
  analysts_delta buy_ratings total_ratings * w.analysts_ratings
    + smart_delta smart_score * w.smart_score
    + options_delta net_options_sentiment * w.net_options_sentiment
    + social_delta net_social_sentiment * w.net_social_sentiment
    + breakout_delta upside_breakout * w.upside_breakout

/-- The logistic bounding of line 96: 1 / (1 + exp(-z)). -/
noncomputable def sigmoid (z : ℝ) : ℝ := 1 / (1 + Real.exp (-z))

/-- calculate_p_win, lines 30-98.  A `none` weights argument is Python's
`weights=None`, replaced by DEFAULT_WEIGHTS (lines 55-56); z = total_delta/100
(line 95). -/
noncomputable def calculate_p_win (buy_ratings total_ratings : ℤ)
    (smart_score net_options_sentiment net_social_sentiment upside_breakout : ℚ)
    (weights : Option Weights) : ℝ :=
  sigmoid
    ((total_delta buy_ratings total_ratings smart_score net_options_sentiment
        net_social_sentiment upside_breakout (weights.getD DEFAULT_WEIGHTS) / 100 : ℚ) : ℝ)

/-- calculate_ev, lines 101-114: ev = p_win * win_r + (1 - p_win) * loss_r. -/
noncomputable def calculate_ev (p_win win_r loss_r : ℝ) : ℝ :=
  p_win * win_r + (1 - p_win) * loss_r

/-- The spec's clamp of a value to an interval [lo, hi] (spec section 4.1). -/
def spec_clamp (x lo hi : ℚ) : ℚ := max lo (min x hi)

/-- The scorer exactly as the spec words it (spec section 4.1, steps 1-4):
five raw deltas each clamped to its cap, the weighted sum, z = total_delta/100,
and the standard logistic.  Written from the spec to be compared with
calculate_p_win, which is written from the code. -/
noncomputable def spec_compute_p_win (buy_ratings total_ratings : ℤ)
    (smart_score net_options_sentiment net_social_sentiment upside_breakout : ℚ)
    (w : Weights) : ℝ :=
  let d_analysts := spec_clamp
    (if 0 < total_ratings then
      ((buy_ratings : ℚ) / (total_ratings : ℚ)) * ((total_ratings : ℚ) / 20) * 30
    else 0) (-30) 30
  let d_smart := spec_clamp (((smart_score - 5) / 5) * 20) (-20) 20
  let d_options := spec_clamp (((net_options_sentiment - 50) / 50) * 20) (-20) 20
  let d_social := spec_clamp (((net_social_sentiment - 50) / 50) * 20) (-20) 20
  let d_breakout := spec_clamp (((upside_breakout - 50) / 50) * 20) (-20) 20
  let td := d_analysts * w.analysts_ratings + d_smart * w.smart_score
    + d_options * w.net_options_sentiment + d_social * w.net_social_sentiment
    + d_breakout * w.upside_breakout
  1 / (1 + Real.exp (-((td / 100 : ℚ) : ℝ)))

/-- Python's int() applied to a numeric cell (line 171-172): truncation
toward zero. -/
def truncInt (q : ℚ) : ℤ := if 0 ≤ q then ⌊q⌋ else -⌊-q⌋

/-- A parsed input table: header columns plus rows of named numeric cells. -/
structure DataFrame where
  cols : List String
  rows : List (String → ℚ)

/-- The result of the batch processor: the input table plus the three derived
columns p_win, ev and recommendation. -/
structure ResultFrame where
  cols : List String
  rows : List (String → ℚ)
  p_win : List ℝ
  ev : List ℝ
  recommendation : List String

/-- The columns of the result: the input columns with p_win, ev and
recommendation appended. -/
def ResultFrame.columns (r : ResultFrame) : List String :=
  r.cols ++ [("p_win"), ("ev"), ("recommendation")]

/-- required_cols, lines 144-153. -/
def required_cols : List String :=
  [("buy_ratings"), ("total_ratings"), ("smart_score"), ("net_options_sentiment"),
   ("net_social_sentiment"), ("upside_breakout"), ("win_r"), ("loss_r")]

/-- The schema check of lines 154-156: the first required column absent from
the header, if any. -/
def missing_required (cols : List String) : Option String :=
  required_cols.find? (fun c => !(cols.contains c))

/-- The classification lambda of line 190. -/
noncomputable def recommendation_of (x : ℝ) : String :=
  if x ≥ 0.3 then ("take_trade") else ("skip_trade")

/-- The per-row P_win of lines 169-179: rating cells through int(), the four
float cells as they are, default weights. -/
noncomputable def row_p_win (row : String → ℚ) : ℝ :=
  calculate_p_win (truncInt (row ("buy_ratings"))) (truncInt (row ("total_ratings")))
    (row ("smart_score")) (row ("net_options_sentiment")) (row ("net_social_sentiment"))
    (row ("upside_breakout")) none

/-- The per-row EV of lines 182-187: calculate_ev on the row's p_win, win_r
and loss_r. -/
noncomputable def row_ev (row : String → ℚ) : ℝ :=
  calculate_ev (row_p_win row) ((row ("win_r") : ℚ) : ℝ) ((row ("loss_r") : ℚ) : ℝ)

/-- calculate_ev_from_csv, lines 117-197, on the parsed table: the schema
check raising on the first missing required column (lines 154-156), the
empty-table branch returning empty derived columns (lines 158-166), and
otherwise the three derived columns computed row by row (lines 169-190). -/
noncomputable def calculate_ev_from_csv (df : DataFrame) : Except String ResultFrame :=
  match missing_required df.cols with
  | some c => Except.error ("Required column \x27" ++ c ++ "\x27 not found in CSV")
  | none =>
    if df.rows.length = 0 then
      Except.ok ⟨df.cols, df.rows, [], [], []⟩
    else
      let pwins := df.rows.map row_p_win
      let evs := df.rows.map row_ev
      let recs := evs.map recommendation_of
      Except.ok ⟨df.cols, df.rows, pwins, evs, recs⟩

/-! ## Helper lemmas -/

theorem clip_le_hi (x lo hi : ℚ) : clip x lo hi ≤ hi := min_le_right _ _

theorem lo_le_clip (x : ℚ) {lo hi : ℚ} (h : lo ≤ hi) : lo ≤ clip x lo hi :=
  le_min (le_max_right x lo) h

theorem clip_mono {x y : ℚ} (lo hi : ℚ) (h : x ≤ y) : clip x lo hi ≤ clip y lo hi :=
  min_le_min (max_le_max h le_rfl) le_rfl

theorem spec_clamp_eq_clip (x : ℚ) {lo hi : ℚ} (h : lo ≤ hi) :
    spec_clamp x lo hi = clip x lo hi := by
  unfold spec_clamp clip
  rw [max_min_distrib_left, max_comm lo x, max_eq_right h]

theorem sigmoid_pos (z : ℝ) : 0 < sigmoid z := by
  unfold sigmoid
  positivity

theorem sigmoid_lt_one (z : ℝ) : sigmoid z < 1 := by
  unfold sigmoid
  rw [div_lt_one (by positivity)]
  linarith [Real.exp_pos (-z)]

theorem sigmoid_mono {a b : ℝ} (h : a ≤ b) : sigmoid a ≤ sigmoid b := by
  unfold sigmoid
  have ha : (0 : ℝ) < 1 + Real.exp (-a) := by positivity
  have hb : (0 : ℝ) < 1 + Real.exp (-b) := by positivity
  have hexp : Real.exp (-b) ≤ Real.exp (-a) := Real.exp_le_exp.mpr (by linarith)
  rw [div_le_div_iff₀ ha hb]
  linarith

theorem half_lt_sigmoid {z : ℝ} (h : 0 < z) : 1 / 2 < sigmoid z := by
  unfold sigmoid
  have he : Real.exp (-z) < 1 := by
    have h2 := Real.exp_lt_exp.mpr (show -z < 0 by linarith)
    simpa [Real.exp_zero] using h2
  have hz : (0 : ℝ) < 1 + Real.exp (-z) := by positivity
  rw [div_lt_div_iff₀ (by norm_num) hz]
  linarith

/-- The analysts factors cancel: for positive total_ratings the raw analysts
value is 1.5 times the buy count. -/
theorem analysts_raw_cancel (b : ℤ) {t : ℤ} (ht : 0 < t) :
    ((b : ℚ) / (t : ℚ)) * ((t : ℚ) / 20) * 30 = 3 / 2 * (b : ℚ) := by
  have htQ : ((t : ℤ) : ℚ) ≠ 0 := by exact_mod_cast ht.ne'
  field_simp
  ring

/-- Closed form of the clipped analysts delta for nonnegative buy count and
positive total. -/
theorem analysts_delta_of_pos {b t : ℤ} (hb : 0 ≤ b) (ht : 0 < t) :
    analysts_delta b t = min (3 / 2 * (b : ℚ)) 30 := by
  unfold analysts_delta clip
  rw [if_pos ht, analysts_raw_cancel b ht]
  have hbQ : (0 : ℚ) ≤ (b : ℚ) := by exact_mod_cast hb
  have h30 : (-30 : ℚ) ≤ 3 / 2 * (b : ℚ) := by nlinarith
  rw [max_eq_left h30]

theorem spec_clamp_30 (x : ℚ) : spec_clamp x (-30) 30 = clip x (-30) 30 :=
  spec_clamp_eq_clip x (by norm_num)

theorem spec_clamp_20 (x : ℚ) : spec_clamp x (-20) 20 = clip x (-20) 20 :=
  spec_clamp_eq_clip x (by norm_num)

/-- total_delta under the default weights, with the weight literals spelled
out as rationals. -/
theorem total_delta_default (b t : ℤ) (s o so u : ℚ) :
    total_delta b t s o so u DEFAULT_WEIGHTS =
      analysts_delta b t * (1 / 4) + smart_delta s * (3 / 20)
        + options_delta o * (1 / 5) + social_delta so * (1 / 5)
        + breakout_delta u * (1 / 5) := by
  norm_num [total_delta, DEFAULT_WEIGHTS]

/-- C1: for every input and every weight mapping with the five required keys,
calculate_p_win returns exactly the reference value the spec describes: the
five clamped deltas, their weighted sum, z = total_delta/100, and the logistic
1/(1+exp(-z)). -/
theorem calculate_p_win_refines_spec (b t : ℤ) (s o so u : ℚ) (w : Weights) :
    calculate_p_win b t s o so u (some w) = spec_compute_p_win b t s o so u w := by
  unfold calculate_p_win spec_compute_p_win sigmoid total_delta
  simp only [spec_clamp_30, spec_clamp_20, Option.getD_some]
  rfl

/-- The value of calculate_p_win at the all-neutral input of C2. -/
theorem neutral_p_win_eq :
    calculate_p_win 10 20 5 50 50 50 none = sigmoid (3 / 80) := by
  have htd : total_delta 10 20 5 50 50 50 DEFAULT_WEIGHTS = 15 / 4 := by
    norm_num [total_delta, DEFAULT_WEIGHTS, analysts_delta, smart_delta, options_delta,
      social_delta, breakout_delta, clip, min_def, max_def]
  unfold calculate_p_win
  rw [show (none : Option Weights).getD DEFAULT_WEIGHTS = DEFAULT_WEIGHTS from rfl, htd]
  norm_num

/-- C2 is false on the code: at the all-neutral input (buy_ratings = 10,
total_ratings = 20, smart_score = 5, sentiments 50) the analysts delta is 15,
not 0, so calculate_p_win with the default weights does not return 1/2. -/
theorem neutral_input_not_half :
    calculate_p_win 10 20 5 50 50 50 none ≠ 1 / 2 := by
  rw [neutral_p_win_eq]
  exact (half_lt_sigmoid (by norm_num)).ne'

/-- C2 amended: at the all-neutral input the four non-analyst deltas are 0
but the analysts delta is 15, so total_delta = 3.75 and calculate_p_win with
the default weights returns 1/(1+exp(-0.0375)), strictly greater than 1/2. -/
theorem neutral_input_value :
    smart_delta 5 = 0 ∧ options_delta 50 = 0 ∧ social_delta 50 = 0 ∧
    breakout_delta 50 = 0 ∧ analysts_delta 10 20 = 15 ∧
    total_delta 10 20 5 50 50 50 DEFAULT_WEIGHTS = 15 / 4 ∧
    calculate_p_win 10 20 5 50 50 50 none = 1 / (1 + Real.exp (-(3 / 80))) ∧
    1 / 2 < calculate_p_win 10 20 5 50 50 50 none := by
  refine ⟨by norm_num [smart_delta, clip, min_def, max_def],
    by norm_num [options_delta, clip, min_def, max_def],
    by norm_num [social_delta, clip, min_def, max_def],
    by norm_num [breakout_delta, clip, min_def, max_def],
    by norm_num [analysts_delta, clip, min_def, max_def],
    by norm_num [total_delta, DEFAULT_WEIGHTS, analysts_delta, smart_delta, options_delta,
      social_delta, breakout_delta, clip, min_def, max_def], ?_, ?_⟩
  · rw [neutral_p_win_eq]; rfl
  · rw [neutral_p_win_eq]; exact half_lt_sigmoid (by norm_num)

/-- C4: for every TradeSignal input, however extreme, and every weight
mapping (or the default), calculate_p_win lies strictly between 0 and 1. -/
theorem p_win_in_open_unit_interval (b t : ℤ) (s o so u : ℚ) (w : Option Weights) :
    0 < calculate_p_win b t s o so u w ∧ calculate_p_win b t s o so u w < 1 :=
  ⟨sigmoid_pos _, sigmoid_lt_one _⟩

/-- C7: calculate_ev is exactly the expected-value formula, total over all
real inputs, and the two reference evaluations come out as the spec states. -/
theorem calculate_ev_formula :
    (∀ p w l : ℝ, calculate_ev p w l = p * w + (1 - p) * l) ∧
    calculate_ev 0.5 2 (-2) = 0 ∧
    |calculate_ev 0.48 2.25 (-1.05) - 0.534| ≤ 0.01 := by
  refine ⟨fun p w l => rfl, by norm_num [calculate_ev], ?_⟩
  rw [show calculate_ev 0.48 2.25 (-1.05) = 0.534 by norm_num [calculate_ev]]
  norm_num

/-- C9: for every positive total_ratings and nonnegative buy_ratings the
clipped analysts delta equals min(1.5 * buy_ratings, 30): the buy proportion
and the coverage factor cancel, so it does not depend on total_ratings. -/
theorem analysts_delta_closed_form (b t : ℤ) (hb : 0 ≤ b) (ht : 0 < t) :
    analysts_delta b t = min (3 / 2 * (b : ℚ)) 30 :=
  analysts_delta_of_pos hb ht

/-- C9 witness: the closed form at buy_ratings = 4, total_ratings = 7. -/
theorem analysts_delta_closed_form_witness :
    (0 : ℤ) ≤ 4 ∧ (0 : ℤ) < 7 ∧ analysts_delta 4 7 = min (3 / 2 * ((4 : ℤ) : ℚ)) 30 :=
  ⟨by decide, by decide, analysts_delta_closed_form 4 7 (by decide) (by decide)⟩

theorem analysts_delta_nonpos_total {t : ℤ} (b : ℤ) (ht : ¬0 < t) :
    analysts_delta b t = 0 := by
  unfold analysts_delta
  rw [if_neg ht]
  norm_num [clip, min_def, max_def]

theorem analysts_delta_nonneg {b : ℤ} (t : ℤ) (hb : 0 ≤ b) :
    0 ≤ analysts_delta b t := by
  by_cases ht : 0 < t
  · rw [analysts_delta_of_pos hb ht]
    have hbQ : (0 : ℚ) ≤ (b : ℚ) := by exact_mod_cast hb
    exact le_min (by nlinarith) (by norm_num)
  · rw [analysts_delta_nonpos_total b ht]

theorem analysts_delta_le_30 (b t : ℤ) : analysts_delta b t ≤ 30 := by
  unfold analysts_delta
  exact clip_le_hi _ _ _

theorem analysts_delta_mono_buy {b₁ b₂ : ℤ} (t : ℤ) (h : b₁ ≤ b₂) :
    analysts_delta b₁ t ≤ analysts_delta b₂ t := by
  by_cases ht : 0 < t
  · unfold analysts_delta
    rw [if_pos ht, if_pos ht, analysts_raw_cancel b₁ ht, analysts_raw_cancel b₂ ht]
    apply clip_mono
    have hQ : (b₁ : ℚ) ≤ (b₂ : ℚ) := by exact_mod_cast h
    linarith
  · rw [analysts_delta_nonpos_total b₁ ht, analysts_delta_nonpos_total b₂ ht]

theorem analysts_delta_mono_total {b t₁ t₂ : ℤ} (hb : 0 ≤ b) (h : t₁ ≤ t₂) :
    analysts_delta b t₁ ≤ analysts_delta b t₂ := by
  by_cases h₁ : 0 < t₁
  · have h₂ : 0 < t₂ := lt_of_lt_of_le h₁ h
    rw [analysts_delta_of_pos hb h₁, analysts_delta_of_pos hb h₂]
  · rw [analysts_delta_nonpos_total b h₁]
    exact analysts_delta_nonneg t₂ hb

theorem smart_delta_mono {s₁ s₂ : ℚ} (h : s₁ ≤ s₂) : smart_delta s₁ ≤ smart_delta s₂ :=
  clip_mono _ _ (by linarith)

theorem options_delta_mono {o₁ o₂ : ℚ} (h : o₁ ≤ o₂) :
    options_delta o₁ ≤ options_delta o₂ :=
  clip_mono _ _ (by linarith)

theorem social_delta_mono {so₁ so₂ : ℚ} (h : so₁ ≤ so₂) :
    social_delta so₁ ≤ social_delta so₂ :=
  clip_mono _ _ (by linarith)

theorem breakout_delta_mono {u₁ u₂ : ℚ} (h : u₁ ≤ u₂) :
    breakout_delta u₁ ≤ breakout_delta u₂ :=
  clip_mono _ _ (by linarith)

theorem smart_delta_mem (s : ℚ) : -20 ≤ smart_delta s ∧ smart_delta s ≤ 20 := by
  unfold smart_delta
  exact ⟨lo_le_clip _ (by norm_num), clip_le_hi _ _ _⟩

theorem options_delta_mem (o : ℚ) : -20 ≤ options_delta o ∧ options_delta o ≤ 20 := by
  unfold options_delta
  exact ⟨lo_le_clip _ (by norm_num), clip_le_hi _ _ _⟩

theorem social_delta_mem (so : ℚ) : -20 ≤ social_delta so ∧ social_delta so ≤ 20 := by
  unfold social_delta
  exact ⟨lo_le_clip _ (by norm_num), clip_le_hi _ _ _⟩

theorem breakout_delta_mem (u : ℚ) : -20 ≤ breakout_delta u ∧ breakout_delta u ≤ 20 := by
  unfold breakout_delta
  exact ⟨lo_le_clip _ (by norm_num), clip_le_hi _ _ _⟩

/-- The sigmoid output never decreases when the default-weights total delta
never decreases. -/
theorem p_win_le_of_total_delta_le {b₁ t₁ b₂ t₂ : ℤ} {s₁ o₁ so₁ u₁ s₂ o₂ so₂ u₂ : ℚ}
    (h : total_delta b₁ t₁ s₁ o₁ so₁ u₁ DEFAULT_WEIGHTS ≤
      total_delta b₂ t₂ s₂ o₂ so₂ u₂ DEFAULT_WEIGHTS) :
    calculate_p_win b₁ t₁ s₁ o₁ so₁ u₁ none ≤ calculate_p_win b₂ t₂ s₂ o₂ so₂ u₂ none := by
  unfold calculate_p_win
  simp only [Option.getD_none]
  apply sigmoid_mono
  have h100 : total_delta b₁ t₁ s₁ o₁ so₁ u₁ DEFAULT_WEIGHTS / 100 ≤
      total_delta b₂ t₂ s₂ o₂ so₂ u₂ DEFAULT_WEIGHTS / 100 := by linarith
  exact_mod_cast h100

/-- C3: with the default weights, increasing any single one of the six signal
inputs while the other five stay fixed never decreases p_win; the
total-ratings case assumes the TradeSignal domain buy_ratings >= 0. -/
theorem p_win_monotone_each_signal :
    (∀ (t : ℤ) (s o so u : ℚ) (b₁ b₂ : ℤ), b₁ ≤ b₂ →
      calculate_p_win b₁ t s o so u none ≤ calculate_p_win b₂ t s o so u none) ∧
    (∀ (b : ℤ) (s o so u : ℚ) (t₁ t₂ : ℤ), 0 ≤ b → t₁ ≤ t₂ →
      calculate_p_win b t₁ s o so u none ≤ calculate_p_win b t₂ s o so u none) ∧
    (∀ (b t : ℤ) (o so u s₁ s₂ : ℚ), s₁ ≤ s₂ →
      calculate_p_win b t s₁ o so u none ≤ calculate_p_win b t s₂ o so u none) ∧
    (∀ (b t : ℤ) (s so u o₁ o₂ : ℚ), o₁ ≤ o₂ →
      calculate_p_win b t s o₁ so u none ≤ calculate_p_win b t s o₂ so u none) ∧
    (∀ (b t : ℤ) (s o u so₁ so₂ : ℚ), so₁ ≤ so₂ →
      calculate_p_win b t s o so₁ u none ≤ calculate_p_win b t s o so₂ u none) ∧
    (∀ (b t : ℤ) (s o so u₁ u₂ : ℚ), u₁ ≤ u₂ →
      calculate_p_win b t s o so u₁ none ≤ calculate_p_win b t s o so u₂ none) := by
  refine ⟨?_, ?_, ?_, ?_, ?_, ?_⟩
  · intro t s o so u b₁ b₂ h
    apply p_win_le_of_total_delta_le
    rw [total_delta_default, total_delta_default]
    have hd := analysts_delta_mono_buy t h
    linarith
  · intro b s o so u t₁ t₂ hb h
    apply p_win_le_of_total_delta_le
    rw [total_delta_default, total_delta_default]
    have hd := analysts_delta_mono_total hb h
    linarith
  · intro b t o so u s₁ s₂ h
    apply p_win_le_of_total_delta_le
    rw [total_delta_default, total_delta_default]
    have hd := smart_delta_mono h
    linarith
  · intro b t s so u o₁ o₂ h
    apply p_win_le_of_total_delta_le
    rw [total_delta_default, total_delta_default]
    have hd := options_delta_mono h
    linarith
  · intro b t s o u so₁ so₂ h
    apply p_win_le_of_total_delta_le
    rw [total_delta_default, total_delta_default]
    have hd := social_delta_mono h
    linarith
  · intro b t s o so u₁ u₂ h
    apply p_win_le_of_total_delta_le
    rw [total_delta_default, total_delta_default]
    have hd := breakout_delta_mono h
    linarith

/-- C3 witness: each of the six monotonicity statements applied at a concrete
one-step increase. -/
theorem p_win_monotone_each_signal_witness :
    (calculate_p_win 3 10 5 50 50 50 none ≤ calculate_p_win 4 10 5 50 50 50 none) ∧
    (calculate_p_win 3 10 5 50 50 50 none ≤ calculate_p_win 3 11 5 50 50 50 none) ∧
    (calculate_p_win 3 10 4 50 50 50 none ≤ calculate_p_win 3 10 5 50 50 50 none) ∧
    (calculate_p_win 3 10 5 49 50 50 none ≤ calculate_p_win 3 10 5 50 50 50 none) ∧
    (calculate_p_win 3 10 5 50 49 50 none ≤ calculate_p_win 3 10 5 50 50 50 none) ∧
    (calculate_p_win 3 10 5 50 50 49 none ≤ calculate_p_win 3 10 5 50 50 50 none) :=
  ⟨p_win_monotone_each_signal.1 10 5 50 50 50 3 4 (by decide),
   p_win_monotone_each_signal.2.1 3 5 50 50 50 10 11 (by decide) (by decide),
   p_win_monotone_each_signal.2.2.1 3 10 50 50 50 4 5 (by norm_num),
   p_win_monotone_each_signal.2.2.2.1 3 10 5 50 50 49 50 (by norm_num),
   p_win_monotone_each_signal.2.2.2.2.1 3 10 5 50 50 49 50 (by norm_num),
   p_win_monotone_each_signal.2.2.2.2.2 3 10 5 50 50 49 50 (by norm_num)⟩

/-- C10: with the default weights and nonnegative rating counts, the analysts
delta is never negative, the weighted total delta lies in [-15, 22.5], and
p_win stays in the band [1/(1+exp(0.15)), 1/(1+exp(-0.225))]. -/
theorem p_win_band (b t : ℤ) (s o so u : ℚ) (hb : 0 ≤ b) (ht : 0 ≤ t) :
    0 ≤ analysts_delta b t ∧
    -15 ≤ total_delta b t s o so u DEFAULT_WEIGHTS ∧
    total_delta b t s o so u DEFAULT_WEIGHTS ≤ 45 / 2 ∧
    1 / (1 + Real.exp (15 / 100)) ≤ calculate_p_win b t s o so u none ∧
    calculate_p_win b t s o so u none ≤ 1 / (1 + Real.exp (-(225 / 1000))) := by
  have ha0 : 0 ≤ analysts_delta b t := analysts_delta_nonneg t hb
  have ha30 : analysts_delta b t ≤ 30 := analysts_delta_le_30 b t
  have hs := smart_delta_mem s
  have ho := options_delta_mem o
  have hso := social_delta_mem so
  have hu := breakout_delta_mem u
  have hlo : -15 ≤ total_delta b t s o so u DEFAULT_WEIGHTS := by
    rw [total_delta_default]
    linarith [hs.1, ho.1, hso.1, hu.1]
  have hhi : total_delta b t s o so u DEFAULT_WEIGHTS ≤ 45 / 2 := by
    rw [total_delta_default]
    linarith [hs.2, ho.2, hso.2, hu.2]
  have key : calculate_p_win b t s o so u none =
      sigmoid ((total_delta b t s o so u DEFAULT_WEIGHTS / 100 : ℚ) : ℝ) := rfl
  refine ⟨ha0, hlo, hhi, ?_, ?_⟩
  · have hsig : sigmoid (-(15 / 100) : ℝ) = 1 / (1 + Real.exp (15 / 100)) := by
      unfold sigmoid
      norm_num
    rw [key, ← hsig]
    apply sigmoid_mono
    have hR : (-15 : ℝ) ≤ ((total_delta b t s o so u DEFAULT_WEIGHTS : ℚ) : ℝ) := by
      exact_mod_cast hlo
    push_cast
    linarith
  · have hsig : sigmoid ((225 / 1000 : ℝ)) = 1 / (1 + Real.exp (-(225 / 1000))) := rfl
    rw [key, ← hsig]
    apply sigmoid_mono
    have hR : ((total_delta b t s o so u DEFAULT_WEIGHTS : ℚ) : ℝ) ≤ ((45 / 2 : ℚ) : ℝ) :=
      Rat.cast_le.mpr hhi
    push_cast at hR ⊢
    linarith

/-- C10 witness: the band at the all-neutral input. -/
theorem p_win_band_witness :
    (0 : ℤ) ≤ 10 ∧ (0 : ℤ) ≤ 20 ∧
    (0 ≤ analysts_delta 10 20 ∧
      -15 ≤ total_delta 10 20 5 50 50 50 DEFAULT_WEIGHTS ∧
      total_delta 10 20 5 50 50 50 DEFAULT_WEIGHTS ≤ 45 / 2 ∧
      1 / (1 + Real.exp (15 / 100)) ≤ calculate_p_win 10 20 5 50 50 50 none ∧
      calculate_p_win 10 20 5 50 50 50 none ≤ 1 / (1 + Real.exp (-(225 / 1000)))) :=
  ⟨by decide, by decide, p_win_band 10 20 5 50 50 50 (by decide) (by decide)⟩

/-- The batch processor on a header with a missing required column: the error
branch of lines 154-156. -/
theorem from_csv_missing (df : DataFrame) (c : String)
    (hm : missing_required df.cols = some c) :
    calculate_ev_from_csv df =
      Except.error ("Required column \x27" ++ c ++ "\x27 not found in CSV") := by
  unfold calculate_ev_from_csv
  rw [hm]

/-- The batch processor on a full header and an empty table: the empty branch
of lines 158-166. -/
theorem from_csv_none_empty (df : DataFrame) (hm : missing_required df.cols = none)
    (hl : df.rows = []) :
    calculate_ev_from_csv df = Except.ok ⟨df.cols, [], [], [], []⟩ := by
  unfold calculate_ev_from_csv
  rw [hm, hl]
  rfl

/-- The batch processor on a full header and a nonempty table: the derived
columns of lines 169-190. -/
theorem from_csv_none_rows (df : DataFrame) (hm : missing_required df.cols = none)
    (hl : ¬df.rows.length = 0) :
    calculate_ev_from_csv df =
      Except.ok ⟨df.cols, df.rows, df.rows.map row_p_win, df.rows.map row_ev,
        (df.rows.map row_ev).map recommendation_of⟩ := by
  unfold calculate_ev_from_csv
  rw [hm, if_neg hl]

/-- In every successful batch result the recommendation column is the ev
column mapped through the threshold lambda of line 190. -/
theorem from_csv_ok_rec (df : DataFrame) (res : ResultFrame)
    (h : calculate_ev_from_csv df = Except.ok res) :
    res.recommendation = res.ev.map recommendation_of := by
  cases hm : missing_required df.cols with
  | some c =>
    rw [from_csv_missing df c hm] at h
    exact absurd h (by simp)
  | none =>
    by_cases hl : df.rows.length = 0
    · rw [from_csv_none_empty df hm (List.length_eq_zero.mp hl)] at h
      have h2 := Except.ok.inj h
      subst h2
      rfl
    · rw [from_csv_none_rows df hm hl] at h
      have h2 := Except.ok.inj h
      subst h2
      rfl

theorem recommendation_of_iff (x : ℝ) :
    (recommendation_of x = ("take_trade") ↔ (0.3 : ℝ) ≤ x) ∧
    (recommendation_of x = ("skip_trade") ↔ x < (0.3 : ℝ)) := by
  unfold recommendation_of
  by_cases h : (0.3 : ℝ) ≤ x
  · rw [if_pos h]
    refine ⟨⟨fun _ => h, fun _ => rfl⟩, ⟨fun hs => ?_, fun hlt => absurd h (not_le.mpr hlt)⟩⟩
    exact absurd hs (by decide)
  · rw [if_neg h]
    refine ⟨⟨fun hs => ?_, fun hle => absurd hle h⟩, ⟨fun _ => not_le.mp h, fun _ => rfl⟩⟩
    exact absurd hs (by decide)

theorem mem_zip_map {l : List ℝ} {f : ℝ → String} {pr : ℝ × String}
    (h : pr ∈ l.zip (l.map f)) : pr.2 = f pr.1 := by
  induction l with
  | nil => simp at h
  | cons a as ih =>
    rw [List.map_cons, List.zip_cons_cons, List.mem_cons] at h
    rcases h with h | h
    · rw [h]
    · exact ih h

/-- C5: in every successful batch result a row's recommendation is take_trade
exactly when its ev is at least 0.3 and skip_trade exactly when its ev is
below 0.3; the threshold lambda classifies ev = 0.3 itself as take_trade. -/
theorem recommendation_iff_threshold :
    (∀ (df : DataFrame) (res : ResultFrame), calculate_ev_from_csv df = Except.ok res →
      ∀ pr ∈ res.ev.zip res.recommendation,
        (pr.2 = ("take_trade") ↔ (0.3 : ℝ) ≤ pr.1) ∧
        (pr.2 = ("skip_trade") ↔ pr.1 < (0.3 : ℝ))) ∧
    recommendation_of 0.3 = ("take_trade") := by
  constructor
  · intro df res hok pr hpr
    rw [from_csv_ok_rec df res hok] at hpr
    rw [mem_zip_map hpr]
    exact recommendation_of_iff pr.1
  · unfold recommendation_of
    rw [if_pos (le_refl (0.3 : ℝ))]

/-- A one-row table for concrete batch runs: zero ratings, neutral scores,
win_r = 2.6, loss_r = -2, so p_win = 1/2 and ev lands exactly on the 0.3
threshold. -/
def row1 (c : String) : ℚ :=
  if c = ("smart_score") then 5
  else if c = ("net_options_sentiment") then 50
  else if c = ("net_social_sentiment") then 50
  else if c = ("upside_breakout") then 50
  else if c = ("win_r") then 13 / 5
  else if c = ("loss_r") then -2
  else 0

/-- The one-row table with the full required header. -/
def df1 : DataFrame := ⟨required_cols, [row1]⟩

/-- The batch result on df1. -/
noncomputable def res1 : ResultFrame :=
  ⟨required_cols, [row1], [1 / 2], [3 / 10], [("take_trade")]⟩

theorem row1_p_win : row_p_win row1 = 1 / 2 := by
  unfold row_p_win
  have hb : row1 ("buy_ratings") = 0 := by simp +decide [row1]
  have ht : row1 ("total_ratings") = 0 := by simp +decide [row1]
  have hs : row1 ("smart_score") = 5 := by simp +decide [row1]
  have ho : row1 ("net_options_sentiment") = 50 := by simp +decide [row1]
  have hso : row1 ("net_social_sentiment") = 50 := by simp +decide [row1]
  have hu : row1 ("upside_breakout") = 50 := by simp +decide [row1]
  rw [hb, ht, hs, ho, hso, hu]
  have htr : truncInt 0 = 0 := by norm_num [truncInt]
  rw [htr]
  have htd : total_delta 0 0 5 50 50 50 DEFAULT_WEIGHTS = 0 := by
    norm_num [total_delta, DEFAULT_WEIGHTS, analysts_delta, smart_delta, options_delta,
      social_delta, breakout_delta, clip, min_def, max_def]
  unfold calculate_p_win
  rw [show (none : Option Weights).getD DEFAULT_WEIGHTS = DEFAULT_WEIGHTS from rfl, htd]
  unfold sigmoid
  norm_num [Real.exp_zero]

theorem row1_ev : row_ev row1 = 3 / 10 := by
  unfold row_ev
  rw [row1_p_win]
  have hw : row1 ("win_r") = 13 / 5 := by simp +decide [row1]
  have hl : row1 ("loss_r") = -2 := by simp +decide [row1]
  rw [hw, hl]
  norm_num [calculate_ev]

theorem rec_of_3_10 : recommendation_of (3 / 10) = ("take_trade") := by
  unfold recommendation_of
  rw [if_pos (by norm_num : (3 / 10 : ℝ) ≥ 0.3)]

theorem df1_result : calculate_ev_from_csv df1 = Except.ok res1 := by
  have hm : missing_required df1.cols = none := by decide
  have hl : ¬df1.rows.length = 0 := by simp [df1]
  rw [from_csv_none_rows df1 hm hl]
  simp [df1, res1, row1_p_win, row1_ev, rec_of_3_10]

/-- C5 witness: the one-row table whose ev is exactly 0.3 is classified
take_trade. -/
theorem recommendation_iff_threshold_witness :
    calculate_ev_from_csv df1 = Except.ok res1 ∧
    ∀ pr ∈ res1.ev.zip res1.recommendation,
      (pr.2 = ("take_trade") ↔ (0.3 : ℝ) ≤ pr.1) ∧
      (pr.2 = ("skip_trade") ↔ pr.1 < (0.3 : ℝ)) :=
  ⟨df1_result, recommendation_iff_threshold.1 df1 res1 df1_result⟩

/-- C6: if a required column is absent from the header, the batch processor
fails with an error naming a missing required column; the failure depends
only on the header, not on the rows, so no row is scored. -/
theorem missing_column_error (cols : List String) (rows : List (String → ℚ))
    (c₀ : String) (hmem : c₀ ∈ required_cols) (habs : c₀ ∉ cols) :
    ∃ c, c ∈ required_cols ∧ c ∉ cols ∧
      calculate_ev_from_csv ⟨cols, rows⟩ =
        Except.error ("Required column \x27" ++ c ++ "\x27 not found in CSV") ∧
      calculate_ev_from_csv ⟨cols, rows⟩ = calculate_ev_from_csv ⟨cols, []⟩ := by
  have hne : missing_required cols ≠ none := by
    intro hn
    have h1 := List.find?_eq_none.mp hn c₀ hmem
    simp at h1
    exact habs h1
  obtain ⟨c, hc⟩ := Option.ne_none_iff_exists'.mp hne
  have hcmem : c ∈ required_cols := List.mem_of_find?_eq_some hc
  have hcabs : c ∉ cols := by
    have hp := List.find?_some hc
    simp at hp
    exact hp
  exact ⟨c, hcmem, hcabs, from_csv_missing ⟨cols, rows⟩ c hc, by
    rw [from_csv_missing ⟨cols, rows⟩ c hc, from_csv_missing ⟨cols, []⟩ c hc]⟩

/-- A header with the first seven required columns but no loss_r. -/
def cols2 : List String :=
  [("buy_ratings"), ("total_ratings"), ("smart_score"), ("net_options_sentiment"),
   ("net_social_sentiment"), ("upside_breakout"), ("win_r")]

/-- C6 witness: a header missing loss_r fails on a named missing column,
independently of its one row. -/
theorem missing_column_error_witness :
    ("loss_r") ∈ required_cols ∧ ("loss_r") ∉ cols2 ∧
    (∃ c, c ∈ required_cols ∧ c ∉ cols2 ∧
      calculate_ev_from_csv ⟨cols2, [row1]⟩ =
        Except.error ("Required column \x27" ++ c ++ "\x27 not found in CSV") ∧
      calculate_ev_from_csv ⟨cols2, [row1]⟩ = calculate_ev_from_csv ⟨cols2, []⟩) :=
  ⟨by decide, by decide, missing_column_error cols2 [row1] ("loss_r") (by decide) (by decide)⟩

/-- C8: a zero-row table with a full header returns, without error, a
zero-row result whose column set has p_win, ev and recommendation in
addition to every input column. -/
theorem empty_batch_shape (cols : List String) (h : ∀ c ∈ required_cols, c ∈ cols) :
    calculate_ev_from_csv ⟨cols, []⟩ = Except.ok ⟨cols, [], [], [], []⟩ ∧
    ("p_win") ∈ ResultFrame.columns ⟨cols, [], [], [], []⟩ ∧
    ("ev") ∈ ResultFrame.columns ⟨cols, [], [], [], []⟩ ∧
    ("recommendation") ∈ ResultFrame.columns ⟨cols, [], [], [], []⟩ ∧
    ∀ c ∈ cols, c ∈ ResultFrame.columns ⟨cols, [], [], [], []⟩ := by
  have hm : missing_required cols = none := by
    apply List.find?_eq_none.mpr
    intro x hx
    simp
    exact h x hx
  refine ⟨from_csv_none_empty ⟨cols, []⟩ hm rfl, ?_, ?_, ?_, ?_⟩
  · simp [ResultFrame.columns]
  · simp [ResultFrame.columns]
  · simp [ResultFrame.columns]
  · intro c hc
    exact List.mem_append_left _ hc

/-- C8 witness: the zero-row table whose header is exactly the required
columns. -/
theorem empty_batch_shape_witness :
    (∀ c ∈ required_cols, c ∈ required_cols) ∧
    (calculate_ev_from_csv ⟨required_cols, []⟩ =
        Except.ok ⟨required_cols, [], [], [], []⟩ ∧
      ("p_win") ∈ ResultFrame.columns ⟨required_cols, [], [], [], []⟩ ∧
      ("ev") ∈ ResultFrame.columns ⟨required_cols, [], [], [], []⟩ ∧
      ("recommendation") ∈ ResultFrame.columns ⟨required_cols, [], [], [], []⟩ ∧
      ∀ c ∈ required_cols, c ∈ ResultFrame.columns ⟨required_cols, [], [], [], []⟩) :=
  ⟨fun _ hc => hc, empty_batch_shape required_cols (fun _ hc => hc)⟩
